import Mathlib

/-!
Shallow embedding of the soma-mobile-backend server (`src/server.ts`).

The embedding covers: a model of JSON/JavaScript values as the handlers
see them, the fixed-window rate limiter (`rateLimiter`), the health
endpoint, the meal-estimate endpoint (input validation, provider-response
shape validation and numeric rounding), and the food-search endpoint
(query/pagination validation with JavaScript `parseInt` semantics).

Numbers are modelled as rationals; `Math.round x` is `⌊x + 1/2⌋`
(round half toward positive infinity), which agrees with JavaScript on
all real values (IEEE-754 representation issues are not modelled).
Outbound HTTP calls are modelled by an oracle argument giving the
provider's answer, plus an `outboundCalled` flag recording whether the
handler reached the point where the call is issued.
-/

/-- JSON/JavaScript values as seen by the server handlers. -/
inductive JVal where
  | undefined : JVal
  | jnull : JVal
  | jbool : Bool → JVal
  | num : ℚ → JVal
  | str : String → JVal
  | arr : List JVal → JVal
  | obj : List (String × JVal) → JVal

/-- JavaScript truthiness (`!x` in the source is `!(truthyJ x)`).
`NaN` is not representable in `ℚ` and never arises on the modelled paths. -/
def truthyJ : JVal → Bool
  | .undefined => false
  | .jnull => false
  | .jbool b => b
  | .num q => decide (q ≠ 0)
  | .str s => decide (s ≠ "")
  | .arr _ => true
  | .obj _ => true

/-- JavaScript `typeof`. -/
def typeofJ : JVal → String
  | .undefined => "undefined"
  | .jnull => "object"
  | .jbool _ => "boolean"
  | .num _ => "number"
  | .str _ => "string"
  | .arr _ => "object"
  | .obj _ => "object"

/-- JavaScript `Array.isArray`. -/
def isArrayJ : JVal → Bool
  | .arr _ => true
  | _ => false

/-- Property access `v[k]`: `undefined` on missing keys and on
non-objects (the null/primitive distinction does not matter on the
modelled paths: both end in the same catch-all 500 handler). -/
def mget (v : JVal) (k : String) : JVal :=
  match v with
  | .obj fields => (fields.lookup k).getD .undefined
  | _ => .undefined

/-- Object spread with a single overriding key, `{...o, k: x}`:
replaces the value at `k` in place, or appends it if absent. -/
def setField : List (String × JVal) → String → JVal → List (String × JVal)
  | [], k, x => [(k, x)]
  | (a, b) :: fields, k, x =>
      if a = k then (k, x) :: fields else (a, b) :: setField fields k x

/-- The `{error: msg}` response body used by every error path. -/
def errBody (msg : String) : JVal := .obj [("error", .str msg)]

/-- JavaScript `Math.round`: round half toward positive infinity. -/
def jsRound (q : ℚ) : ℤ := ⌊q + 1/2⌋

/-- The map `Math.round(x)` on numbers (calories). -/
def roundI (q : ℚ) : ℚ := (jsRound q : ℚ)

/-- The map `Math.round(x * 10) / 10` (protein/carbs/fat). -/
def round1 (q : ℚ) : ℚ := (jsRound (q * 10) : ℚ) / 10

/-- Apply a rounding map to a numeric value, leaving other values
unchanged (the server only applies it to validated numeric fields). -/
def roundNumJ (f : ℚ → ℚ) : JVal → JVal
  | .num q => .num (f q)
  | v => v

/-! ## Rate limiter (`src/server.ts` lines 12-42) -/

def RATE_LIMIT_WINDOW : ℕ := 60 * 1000

def MAX_REQUESTS_PER_WINDOW : ℕ := 30

/-- One value of the `requestCounts` map. -/
structure RateLimitEntry where
  count : ℕ
  resetTime : ℕ
deriving DecidableEq

/-- The `requestCounts` map, keyed by client address. -/
abbrev Store := String → Option RateLimitEntry

def emptyStore : Store := fun _ => none

/-- The write `requestCounts.set ip e` (also models in-place mutation of an entry). -/
def updateStore (s : Store) (ip : String) (e : RateLimitEntry) : Store :=
  fun k => if k = ip then some e else s k

/-- What the middleware does with a request: pass it to the handler
chain (`next()`) or answer it directly. -/
inductive RLOutcome where
  | next : RLOutcome
  | respond : ℕ → JVal → RLOutcome

def rateLimitBody : JVal := errBody "Too many requests. Please try again later."

/-- The `rateLimiter` middleware: one request from `ip` at time `now`
(milliseconds), returning the outcome and the updated store. -/
def rateLimiter (s : Store) (ip : String) (now : ℕ) : RLOutcome × Store :=
  match s ip with
  | none => (.next, updateStore s ip ⟨1, now + RATE_LIMIT_WINDOW⟩)
  | some userLimit =>
      if userLimit.resetTime < now then
        (.next, updateStore s ip ⟨1, now + RATE_LIMIT_WINDOW⟩)
      else if userLimit.count < MAX_REQUESTS_PER_WINDOW then
        (.next, updateStore s ip ⟨userLimit.count + 1, userLimit.resetTime⟩)
      else
        (.respond 429 rateLimitBody, s)

/-- Run a sequence of requests from one client through the middleware,
collecting the outcomes. -/
def processSeq (ip : String) : Store → List ℕ → List RLOutcome × Store
  | s, [] => ([], s)
  | s, t :: ts =>
      let r := rateLimiter s ip t
      let rest := processSeq ip r.2 ts
      (r.1 :: rest.1, rest.2)

/-! ## Health endpoint (`src/server.ts` lines 113-115), behind the
rate limiter (`app.use(rateLimiter)`, line 42) -/

def healthBody (iso : String) : JVal :=
  .obj [("status", .str "ok"), ("timestamp", .str iso)]

/-- Route `GET /health` as dispatched by the app: rate limiter first, then the
handler (which answers 200 unconditionally); `iso` is the ISO-8601
rendering of the current time. -/
def handleHealth (s : Store) (ip : String) (now : ℕ) (iso : String) :
    (ℕ × JVal) × Store :=
  match rateLimiter s ip now with
  | (.next, s2) => ((200, healthBody iso), s2)
  | (.respond st b, s2) => ((st, b), s2)

/-! ## Meal-estimate endpoint (`src/server.ts` lines 118-212) -/

/-- What the completion provider's answer looks like once the outbound
call has been made: no content in the first choice, content that fails
`JSON.parse` (carrying the thrown error's message), or a parsed value. -/
inductive ProviderOut where
  | noContent : ProviderOut
  | parseError : String → ProviderOut
  | parsed : JVal → ProviderOut

/-- A handler's answer, together with whether the outbound call to the
external provider was reached. -/
structure EndpointResult where
  status : ℕ
  body : JVal
  outboundCalled : Bool

/-- The top-level shape check on the parsed provider response
(lines 162-172): true when the `if` condition that throws
"Invalid response format from AI service" holds. -/
def invalidShape (parsed : JVal) : Bool :=
  (typeofJ (mget parsed "description") != "string") ||
  (!(isArrayJ (mget parsed "items"))) ||
  (typeofJ (mget parsed "total_calories") != "number") ||
  (typeofJ (mget parsed "protein") != "number") ||
  (typeofJ (mget parsed "carbs") != "number") ||
  (typeofJ (mget parsed "fat") != "number") ||
  (!(isArrayJ (mget parsed "assumptions")))

/-- The per-item shape check (lines 175-186): true when the condition
that throws "Invalid item format in AI response" holds for `item`. -/
def invalidItem (item : JVal) : Bool :=
  (typeofJ (mget item "name") != "string") ||
  (typeofJ (mget item "quantity") != "string") ||
  (typeofJ (mget item "calories") != "number") ||
  (typeofJ (mget item "protein") != "number") ||
  (typeofJ (mget item "carbs") != "number") ||
  (typeofJ (mget item "fat") != "number")

/-- The `for (const item of parsed.items)` loop: some item fails the
shape check (only reached once `Array.isArray(parsed.items)` holds). -/
def anyInvalidItem (parsed : JVal) : Bool :=
  match mget parsed "items" with
  | .arr items => items.any invalidItem
  | _ => false

/-- The spread `{...item, calories: Math.round(...), protein: ..., carbs: ..., fat: ...}`
(lines 191-197). -/
def normalizeItem (item : JVal) : JVal :=
  match item with
  | .obj fields =>
      .obj (setField (setField (setField (setField fields
        "calories" (roundNumJ roundI (mget item "calories")))
        "protein" (roundNumJ round1 (mget item "protein")))
        "carbs" (roundNumJ round1 (mget item "carbs")))
        "fat" (roundNumJ round1 (mget item "fat")))
  | v => v

/-- The map `parsed.items.map(normalizeItem)`; non-arrays are unreachable here
because validation checked `Array.isArray` first. -/
def mapItems : JVal → JVal
  | .arr items => .arr (items.map normalizeItem)
  | v => v

/-- The `result` object (lines 189-202): spread of `parsed` with the
`items`, `total_calories`, `protein`, `carbs`, `fat` keys overridden by
their rounded values. -/
def normalizeMeal (parsed : JVal) : JVal :=
  match parsed with
  | .obj fields =>
      .obj (setField (setField (setField (setField (setField fields
        "items" (mapItems (mget parsed "items")))
        "total_calories" (roundNumJ roundI (mget parsed "total_calories")))
        "protein" (roundNumJ round1 (mget parsed "protein")))
        "carbs" (roundNumJ round1 (mget parsed "carbs")))
        "fat" (roundNumJ round1 (mget parsed "fat")))
  | v => v

/-- Route `POST /api/estimate-meal`: `groqApiKey` is the `GROQ_API_KEY`
environment value (empty string when unset), `userInput` the request
body's field, `provider` the oracle for the outbound completion call. -/
def estimateMeal (groqApiKey : String) (userInput : JVal)
    (provider : ProviderOut) : EndpointResult :=
  if !(truthyJ userInput) || (typeofJ userInput != "string") then
    ⟨400, errBody "Invalid request. userInput is required and must be a string.", false⟩
  else if groqApiKey = "" then
    ⟨500, errBody "Groq API key not configured on server", false⟩
  else
    match provider with
    | .noContent => ⟨500, errBody "No response from AI service", true⟩
    | .parseError msg => ⟨500, errBody msg, true⟩
    | .parsed v =>
        if invalidShape v then
          ⟨500, errBody "Invalid response format from AI service", true⟩
        else if anyInvalidItem v then
          ⟨500, errBody "Invalid item format in AI response", true⟩
        else
          ⟨200, normalizeMeal v, true⟩

/-! ## Food-search endpoint (`src/server.ts` lines 215-258) -/

/-- An Express `req.query` value: a string, an array of values, or a
nested object (`qs` never produces numbers/booleans/null). A missing
parameter is `Option.none`. -/
inductive QVal where
  | qstr : String → QVal
  | qarr : List QVal → QVal
  | qobj : List (String × QVal) → QVal

mutual

/-- JavaScript string coercion of a query value (`parseInt` applies it
to its argument): arrays join their elements with commas, plain objects
render as `[object Object]`. -/
def jsToStringQ : QVal → String
  | .qstr s => s
  | .qarr vs => jsToStringQList vs
  | .qobj _ => "[object Object]"

/-- JavaScript `Array.prototype.join` with a comma over coerced elements. -/
def jsToStringQList : List QVal → String
  | [] => ""
  | [v] => jsToStringQ v
  | v :: w :: vs => jsToStringQ v ++ "," ++ jsToStringQList (w :: vs)

end

/-- Truthiness of a possibly-missing query value. -/
def truthyQ : Option QVal → Bool
  | none => false
  | some (.qstr s) => decide (s ≠ "")
  | some (.qarr _) => true
  | some (.qobj _) => true

/-- JavaScript `typeof` of a possibly-missing query value. -/
def typeofQ : Option QVal → String
  | none => "undefined"
  | some (.qstr _) => "string"
  | some _ => "object"

/-- The whitespace `parseInt` skips before the number. -/
def isWhitespaceChar (c : Char) : Bool :=
  (c == ' ') || (c == '\t') || (c == '\n') || (c == '\r')

/-- Accumulate a decimal digit run. -/
def digitsToNat (acc : ℕ) : List Char → ℕ
  | [] => acc
  | c :: cs => digitsToNat (acc * 10 + (c.toNat - '0'.toNat)) cs

/-- The longest decimal-digit prefix, `none` when it is empty. -/
def parseDigits (cs : List Char) : Option ℕ :=
  let ds := cs.takeWhile (fun c => c.isDigit)
  if ds.isEmpty then none else some (digitsToNat 0 ds)

/-- JavaScript `parseInt(s, 10)`: skip leading whitespace, read an
optional sign and then the longest digit run; `none` models `NaN`. -/
def parseIntJS (s : String) : Option ℤ :=
  match s.data.dropWhile isWhitespaceChar with
  | '-' :: rest => (parseDigits rest).map (fun n => -(n : ℤ))
  | '+' :: rest => (parseDigits rest).map (fun n => (n : ℤ))
  | cs => (parseDigits cs).map (fun n => (n : ℤ))

/-- The food-database search call's result: a JSON body on a 2xx
response, or a non-ok HTTP status. -/
inductive UpstreamOut where
  | ok : JVal → UpstreamOut
  | httpError : ℕ → UpstreamOut

/-- A search answer plus whether the outbound `fetch` was reached. -/
structure SearchResult where
  status : ℕ
  body : JVal
  outboundCalled : Bool

/-- Route `GET /api/search-foods`: `query`/`pageSize`/`pageNumber` are the
request's query parameters (destructured with defaults `"10"`/`"1"`),
`upstream` the oracle for the outbound `fetch`. -/
def searchFoods (query pageSize pageNumber : Option QVal)
    (upstream : UpstreamOut) : SearchResult :=
  let pageSizeV := pageSize.getD (.qstr "10")
  let pageNumberV := pageNumber.getD (.qstr "1")
  if !(truthyQ query) || (typeofQ query != "string") then
    ⟨400, errBody "Invalid request. query parameter is required.", false⟩
  else
    match parseIntJS (jsToStringQ pageSizeV), parseIntJS (jsToStringQ pageNumberV) with
    | some pageSizeNum, some pageNumberNum =>
        if pageSizeNum < 1 ∨ pageNumberNum < 1 then
          ⟨400, errBody "Invalid pageSize or pageNumber parameters.", false⟩
        else
          match upstream with
          | .ok data => ⟨200, data, true⟩
          | .httpError st => ⟨500, errBody ("USDA API Error: " ++ toString st), true⟩
    | _, _ => ⟨400, errBody "Invalid pageSize or pageNumber parameters.", false⟩

/-! ## Lemmas about the rate limiter -/

theorem rateLimiter_step_fresh (s : Store) (key : String) (now : ℕ)
    (h : s key = none ∨ ∃ e, s key = some e ∧ e.resetTime < now) :
    rateLimiter s key now = (.next, updateStore s key ⟨1, now + RATE_LIMIT_WINDOW⟩) := by
  rcases h with h | ⟨e, he, ht⟩
  · simp [rateLimiter, h]
  · simp [rateLimiter, he, ht]

theorem rateLimiter_frame_step (s : Store) (a b : String) (h : b ≠ a) (t : ℕ) :
    ((rateLimiter s a t).2) b = s b := by
  cases ha : s a with
  | none => simp [rateLimiter, ha, updateStore, h]
  | some e =>
      simp only [rateLimiter, ha]
      split_ifs <;> simp [updateStore, h]

theorem rateLimiter_fst_congr (s1 s2 : Store) (key : String) (t : ℕ)
    (h : s1 key = s2 key) :
    (rateLimiter s1 key t).1 = (rateLimiter s2 key t).1 := by
  unfold rateLimiter
  rw [h]
  cases s2 key with
  | none => rfl
  | some e =>
      dsimp only
      split_ifs <;> rfl

theorem processSeq_frame (a b : String) (h : b ≠ a) :
    ∀ (ts : List ℕ) (s : Store), ((processSeq a s ts).2) b = s b := by
  intro ts
  induction ts with
  | nil => intro s; rfl
  | cons t ts ih =>
      intro s
      simp only [processSeq]
      rw [ih]
      exact rateLimiter_frame_step s a b h t

theorem processSeq_active (ip : String) (rt : ℕ) :
    ∀ (ts : List ℕ) (s : Store) (c : ℕ), s ip = some ⟨c, rt⟩ →
    c ≤ MAX_REQUESTS_PER_WINDOW → (∀ t ∈ ts, t ≤ rt) →
    (processSeq ip s ts).1 =
      List.replicate (min ts.length (MAX_REQUESTS_PER_WINDOW - c)) .next ++
      List.replicate (ts.length - (MAX_REQUESTS_PER_WINDOW - c))
        (.respond 429 rateLimitBody) := by
  intro ts
  induction ts with
  | nil => intro s c _ _ _; simp [processSeq]
  | cons t ts ih =>
      intro s c hs hc ht
      have htle : ¬ rt < t := Nat.not_lt.mpr (ht t (List.mem_cons_self t ts))
      have htrest : ∀ u ∈ ts, u ≤ rt := fun u hu => ht u (List.mem_cons_of_mem t hu)
      have hM : MAX_REQUESTS_PER_WINDOW = 30 := rfl
      by_cases hlt : c < MAX_REQUESTS_PER_WINDOW
      · have hstep : rateLimiter s ip t = (.next, updateStore s ip ⟨c + 1, rt⟩) := by
          simp [rateLimiter, hs, htle, hlt]
        simp only [processSeq, hstep]
        rw [ih (updateStore s ip ⟨c + 1, rt⟩) (c + 1) (by simp [updateStore]) hlt htrest]
        have h1 : min (ts.length + 1) (MAX_REQUESTS_PER_WINDOW - c) =
            min ts.length (MAX_REQUESTS_PER_WINDOW - (c + 1)) + 1 := by omega
        have h2 : ts.length + 1 - (MAX_REQUESTS_PER_WINDOW - c) =
            ts.length - (MAX_REQUESTS_PER_WINDOW - (c + 1)) := by omega
        simp only [List.length_cons, h1, h2, List.replicate_succ, List.cons_append]
      · have hstep : rateLimiter s ip t = (.respond 429 rateLimitBody, s) := by
          simp [rateLimiter, hs, htle, hlt]
        simp only [processSeq, hstep]
        rw [ih s c hs hc htrest]
        have h0 : MAX_REQUESTS_PER_WINDOW - c = 0 := by omega
        simp [h0, List.replicate_succ]

/-! ## Claim theorems: rate limiter and health endpoint -/

/-- C1: starting a window (no stored entry, or the stored `resetTime`
elapsed), requests 1 through 30 from the same key within the window are
passed to the handler chain, and the 31st and all subsequent requests in
the same window are answered 429 with body
`{error: "Too many requests. Please try again later."}`. -/
theorem rateLimiter_window_limit (s : Store) (key : String) (t0 : ℕ) (ts : List ℕ)
    (hfresh : s key = none ∨ ∃ e, s key = some e ∧ e.resetTime < t0)
    (hts : ∀ t ∈ ts, t ≤ t0 + RATE_LIMIT_WINDOW) :
    (processSeq key s (t0 :: ts)).1 =
      List.replicate (min (ts.length + 1) MAX_REQUESTS_PER_WINDOW) RLOutcome.next ++
      List.replicate (ts.length + 1 - MAX_REQUESTS_PER_WINDOW)
        (RLOutcome.respond 429 rateLimitBody) := by
  have hstep := rateLimiter_step_fresh s key t0 hfresh
  simp only [processSeq, hstep]
  rw [processSeq_active key (t0 + RATE_LIMIT_WINDOW) ts _ 1 (by simp [updateStore])
    (by norm_num [MAX_REQUESTS_PER_WINDOW]) hts]
  have hM : MAX_REQUESTS_PER_WINDOW = 30 := rfl
  have h1 : min (ts.length + 1) MAX_REQUESTS_PER_WINDOW =
      min ts.length (MAX_REQUESTS_PER_WINDOW - 1) + 1 := by omega
  have h2 : ts.length + 1 - MAX_REQUESTS_PER_WINDOW =
      ts.length - (MAX_REQUESTS_PER_WINDOW - 1) := by omega
  rw [h1, h2, List.replicate_succ, List.cons_append]

/-- Witness for C1: 32 requests from one address inside one window give
30 admissions followed by 2 rejections. -/
theorem rateLimiter_window_limit_witness :
    (processSeq "9.9.9.9" emptyStore (0 :: List.replicate 31 60000)).1 =
      List.replicate (min ((List.replicate 31 60000).length + 1)
        MAX_REQUESTS_PER_WINDOW) RLOutcome.next ++
      List.replicate ((List.replicate 31 60000).length + 1 - MAX_REQUESTS_PER_WINDOW)
        (RLOutcome.respond 429 rateLimitBody) :=
  rateLimiter_window_limit emptyStore "9.9.9.9" 0 (List.replicate 31 60000)
    (Or.inl rfl) (by decide)

/-- C6: a request from a key with no stored entry, or arriving strictly
after the stored `resetTime`, is admitted and (re)initializes the key's
entry to count 1 with `resetTime = now + 60000`. -/
theorem rateLimiter_reset_to_one (s : Store) (key : String) (now : ℕ)
    (h : s key = none ∨ ∃ e, s key = some e ∧ e.resetTime < now) :
    rateLimiter s key now =
      (RLOutcome.next, updateStore s key ⟨1, now + RATE_LIMIT_WINDOW⟩) ∧
    ((rateLimiter s key now).2) key = some ⟨1, now + 60000⟩ := by
  have hstep := rateLimiter_step_fresh s key now h
  refine ⟨hstep, ?_⟩
  rw [hstep]
  simp [updateStore, RATE_LIMIT_WINDOW]

/-- Witness for C6 at a fresh key. -/
theorem rateLimiter_reset_to_one_witness :
    rateLimiter emptyStore "1.2.3.4" 5 =
      (RLOutcome.next, updateStore emptyStore "1.2.3.4" ⟨1, 5 + RATE_LIMIT_WINDOW⟩) ∧
    ((rateLimiter emptyStore "1.2.3.4" 5).2) "1.2.3.4" = some ⟨1, 5 + 60000⟩ :=
  rateLimiter_reset_to_one emptyStore "1.2.3.4" 5 (Or.inl rfl)

/-- C7: any sequence of requests from key `a` leaves the stored entry of
a distinct key `b` unchanged, and hence leaves `b`'s admission decision
unchanged. -/
theorem rateLimiter_keys_independent (s : Store) (a b : String) (hab : a ≠ b)
    (ts : List ℕ) (t : ℕ) :
    ((processSeq a s ts).2) b = s b ∧
    (rateLimiter ((processSeq a s ts).2) b t).1 = (rateLimiter s b t).1 := by
  have hf := processSeq_frame a b (Ne.symm hab) ts s
  exact ⟨hf, rateLimiter_fst_congr _ _ b t hf⟩

/-- Witness for C7: 30 requests from one address do not touch another
address's entry or decision. -/
theorem rateLimiter_keys_independent_witness :
    ((processSeq "10.0.0.1" emptyStore (List.replicate 30 0)).2) "10.0.0.2" =
      emptyStore "10.0.0.2" ∧
    (rateLimiter ((processSeq "10.0.0.1" emptyStore (List.replicate 30 0)).2)
        "10.0.0.2" 7).1 =
      (rateLimiter emptyStore "10.0.0.2" 7).1 :=
  rateLimiter_keys_independent emptyStore "10.0.0.1" "10.0.0.2" (by decide)
    (List.replicate 30 0) 7

/-- C3 counterexample: `app.use(rateLimiter)` guards every route, so
after 30 admitted requests in the current window, a further `GET /health`
from the same client is answered 429, not 200 — refuting "regardless of
prior requests ... never returns any other status". -/
theorem health_rate_limited_counterexample :
    (handleHealth ((processSeq "9.9.9.9" emptyStore (List.replicate 30 0)).2)
        "9.9.9.9" 1 "2026-10-11T00:00:00.000Z").1 = (429, rateLimitBody) ∧
    (handleHealth ((processSeq "9.9.9.9" emptyStore (List.replicate 30 0)).2)
        "9.9.9.9" 1 "2026-10-11T00:00:00.000Z").1.1 ≠ 200 :=
  ⟨rfl, by decide⟩

/-- C3 (amended): whenever the rate limiter admits the request, `GET
/health` answers 200 with `{status: "ok", timestamp: <ISO-8601 time>}`;
the handler itself has no other outcome. -/
theorem health_ok_when_admitted (s : Store) (ip : String) (now : ℕ) (iso : String)
    (h : (rateLimiter s ip now).1 = RLOutcome.next) :
    (handleHealth s ip now iso).1 = (200, healthBody iso) := by
  rcases hr : rateLimiter s ip now with ⟨o, s2⟩
  rw [hr] at h
  cases o with
  | next => simp [handleHealth, hr]
  | respond st b => simp at h

/-- Witness for the amended C3 on a fresh client. -/
theorem health_ok_when_admitted_witness :
    (handleHealth emptyStore "1.1.1.1" 0 "2026-10-11T00:00:00.000Z").1 =
      (200, healthBody "2026-10-11T00:00:00.000Z") :=
  health_ok_when_admitted emptyStore "1.1.1.1" 0 "2026-10-11T00:00:00.000Z" rfl

/-! ## Claim theorems: meal-estimate input validation and rounding -/

/-- C5: any request body whose `userInput` is not of string type
(absent, null, number, boolean, object, array) is answered 400 before
the outbound completion call is reached. -/
theorem estimateMeal_rejects_nonstring (key : String) (u : JVal) (p : ProviderOut)
    (h : typeofJ u ≠ "string") :
    estimateMeal key u p =
      ⟨400, errBody "Invalid request. userInput is required and must be a string.",
        false⟩ := by
  have hb : (typeofJ u != "string") = true := by simp [h]
  unfold estimateMeal
  rw [hb]
  simp

/-- Witness for C5 at `userInput = null`. -/
theorem estimateMeal_rejects_nonstring_witness :
    estimateMeal "key" JVal.jnull ProviderOut.noContent =
      ⟨400, errBody "Invalid request. userInput is required and must be a string.",
        false⟩ :=
  estimateMeal_rejects_nonstring "key" JVal.jnull ProviderOut.noContent (by decide)

/-- C10: the empty string is rejected although it is a present string:
`userInput = ""` gives 400 on the estimate endpoint and `query = ""`
gives 400 on the search endpoint, in both cases before any outbound
call. -/
theorem empty_string_rejected (key : String) (p : ProviderOut)
    (ps pn : Option QVal) (up : UpstreamOut) :
    estimateMeal key (.str "") p =
      ⟨400, errBody "Invalid request. userInput is required and must be a string.",
        false⟩ ∧
    searchFoods (some (.qstr "")) ps pn up =
      ⟨400, errBody "Invalid request. query parameter is required.", false⟩ :=
  ⟨rfl, rfl⟩

/-! ## Rounding lemmas -/

theorem jsRound_intCast (z : ℤ) : jsRound (z : ℚ) = z := by
  rw [jsRound, Int.floor_int_add]
  norm_num

theorem roundI_idem (q : ℚ) : roundI (roundI q) = roundI q := by
  simp [roundI, jsRound_intCast]

theorem round1_idem (q : ℚ) : round1 (round1 q) = round1 q := by
  have h10 : (((jsRound (q * 10) : ℤ) : ℚ) / 10) * 10 = ((jsRound (q * 10) : ℤ) : ℚ) := by
    field_simp
  simp only [round1]
  rw [h10, jsRound_intCast]

/-- C8: the normalization's roundings are idempotent — applying the
integer rounding (calories) or the one-decimal rounding
(protein/carbs/fat) a second time returns the same value; in particular
3.25 rounds to 3.3 and 3.3 rounds to itself. -/
theorem rounding_idempotent :
    (∀ q : ℚ, roundI (roundI q) = roundI q) ∧
    (∀ q : ℚ, round1 (round1 q) = round1 q) ∧
    round1 (325/100) = 33/10 ∧ round1 (33/10) = 33/10 := by
  refine ⟨roundI_idem, round1_idem, ?_, ?_⟩
  · rw [round1, jsRound]
    norm_num
  · rw [round1, jsRound]
    norm_num

/-! ## Claim theorem: the total is not checked against the items -/

/-- A provider response that passes shape validation but whose
`total_calories` (999) is not the sum of its items' calories (100). -/
def eggItem : JVal := .obj [("name", .str "eggs"), ("quantity", .str "2 eggs"),
  ("calories", .num 100), ("protein", .num 12), ("carbs", .num 1), ("fat", .num 10)]

def mismatchedMeal : JVal := .obj [("description", .str "eggs and toast"),
  ("items", .arr [eggItem]), ("total_calories", .num 999), ("protein", .num 12),
  ("carbs", .num 1), ("fat", .num 10), ("confidence", .str "high"),
  ("assumptions", .arr [])]

/-- Sum of the `calories` fields of a meal's `items`; stated only to
express the non-invariant — the server never computes this sum. -/
def sumItemCalories (v : JVal) : ℚ :=
  match mget v "items" with
  | .arr items => (items.map (fun it =>
      match mget it "calories" with
      | .num q => q
      | _ => 0)).sum
  | _ => 0

/-- C9: the estimate endpoint trusts the provider's totals — a response
passing shape validation is returned with status 200 even though its
`total_calories` (999) differs from the rounded sum of its items'
calories (100). -/
theorem estimate_total_not_enforced :
    (estimateMeal "key" (.str "2 eggs and toast") (.parsed mismatchedMeal)).status
      = 200 ∧
    mget (estimateMeal "key" (.str "2 eggs and toast")
      (.parsed mismatchedMeal)).body "total_calories" = .num 999 ∧
    roundI (sumItemCalories (estimateMeal "key" (.str "2 eggs and toast")
      (.parsed mismatchedMeal)).body) = 100 ∧
    (999 : ℚ) ≠ 100 := by
  have h999 : roundI (999 : ℚ) = 999 := by rw [roundI, jsRound]; norm_num
  have h100 : roundI (100 : ℚ) = 100 := by rw [roundI, jsRound]; norm_num
  refine ⟨rfl, ?_, ?_, by norm_num⟩
  · calc mget (estimateMeal "key" (.str "2 eggs and toast")
          (.parsed mismatchedMeal)).body "total_calories"
        = .num (roundI 999) := rfl
      _ = .num 999 := by rw [h999]
  · calc roundI (sumItemCalories (estimateMeal "key" (.str "2 eggs and toast")
          (.parsed mismatchedMeal)).body)
        = roundI (roundI 100 + 0) := rfl
      _ = 100 := by rw [h100, add_zero, h100]

/-! ## Lemmas about object field lookup and the normalizer -/

theorem lookup_setField_self (fs : List (String × JVal)) (k : String) (x : JVal) :
    ((setField fs k x).lookup k) = some x := by
  induction fs with
  | nil => simp [setField, List.lookup]
  | cons p fs ih =>
      obtain ⟨a, b⟩ := p
      by_cases h : a = k
      · subst h
        simp [setField, List.lookup]
      · have hba : (k == a) = false := by simp [Ne.symm h]
        simp [setField, h, List.lookup, hba, ih]

theorem lookup_setField_ne (fs : List (String × JVal)) (k k' : String) (x : JVal)
    (h : k' ≠ k) : ((setField fs k x).lookup k') = fs.lookup k' := by
  induction fs with
  | nil =>
      have hba : (k' == k) = false := by simp [h]
      simp [setField, List.lookup, hba]
  | cons p fs ih =>
      obtain ⟨a, b⟩ := p
      by_cases ha : a = k
      · subst ha
        have hba : (k' == a) = false := by simp [h]
        simp [setField, List.lookup, hba]
      · by_cases hb : k' = a
        · subst hb
          simp [setField, ha, List.lookup]
        · have hba : (k' == a) = false := by simp [hb]
          simp [setField, ha, List.lookup, hba, ih]

theorem mget_setField_self (fs : List (String × JVal)) (k : String) (x : JVal) :
    mget (.obj (setField fs k x)) k = x := by
  simp [mget, lookup_setField_self]

theorem mget_setField_ne (fs : List (String × JVal)) (k k' : String) (x : JVal)
    (h : k' ≠ k) : mget (.obj (setField fs k x)) k' = mget (.obj fs) k' := by
  simp [mget, lookup_setField_ne fs k k' x h]

theorem typeofJ_number (v : JVal) (h : typeofJ v = "number") :
    ∃ q, v = JVal.num q := by
  cases v with
  | num q => exact ⟨q, rfl⟩
  | undefined => simp [typeofJ] at h
  | jnull => simp [typeofJ] at h
  | jbool b => simp [typeofJ] at h
  | str s => simp [typeofJ] at h
  | arr l => simp [typeofJ] at h
  | obj fs => simp [typeofJ] at h

theorem isArrayJ_arr (v : JVal) (h : isArrayJ v = true) :
    ∃ l, v = JVal.arr l := by
  cases v with
  | arr l => exact ⟨l, rfl⟩
  | undefined => simp [isArrayJ] at h
  | jnull => simp [isArrayJ] at h
  | jbool b => simp [isArrayJ] at h
  | num q => simp [isArrayJ] at h
  | str s => simp [isArrayJ] at h
  | obj fs => simp [isArrayJ] at h

/-- The named numeric field of `v` exists and is a fixed point of its
rounding map `f` ("is rounded"). -/
def numFieldRounded (v : JVal) (k : String) (f : ℚ → ℚ) : Prop :=
  ∃ q : ℚ, mget v k = .num q ∧ f q = q

/-- All four numeric fields of one meal item are rounded. -/
def itemRounded (it : JVal) : Prop :=
  numFieldRounded it "calories" roundI ∧ numFieldRounded it "protein" round1 ∧
  numFieldRounded it "carbs" round1 ∧ numFieldRounded it "fat" round1

/-- Every numeric field of a meal estimate is rounded: the top-level
`total_calories` (integer) and `protein`/`carbs`/`fat` (one decimal),
and the four numeric fields of every element of `items`. -/
def mealRounded (v : JVal) : Prop :=
  numFieldRounded v "total_calories" roundI ∧
  numFieldRounded v "protein" round1 ∧
  numFieldRounded v "carbs" round1 ∧
  numFieldRounded v "fat" round1 ∧
  ∃ items : List JVal, mget v "items" = .arr items ∧ ∀ it ∈ items, itemRounded it

theorem mget_normalizeItem_calories (fs : List (String × JVal)) :
    mget (normalizeItem (.obj fs)) "calories" =
      roundNumJ roundI (mget (.obj fs) "calories") := by
  simp only [normalizeItem]
  rw [mget_setField_ne _ "fat" "calories" _ (by decide),
    mget_setField_ne _ "carbs" "calories" _ (by decide),
    mget_setField_ne _ "protein" "calories" _ (by decide),
    mget_setField_self]

theorem mget_normalizeItem_protein (fs : List (String × JVal)) :
    mget (normalizeItem (.obj fs)) "protein" =
      roundNumJ round1 (mget (.obj fs) "protein") := by
  simp only [normalizeItem]
  rw [mget_setField_ne _ "fat" "protein" _ (by decide),
    mget_setField_ne _ "carbs" "protein" _ (by decide),
    mget_setField_self]

theorem mget_normalizeItem_carbs (fs : List (String × JVal)) :
    mget (normalizeItem (.obj fs)) "carbs" =
      roundNumJ round1 (mget (.obj fs) "carbs") := by
  simp only [normalizeItem]
  rw [mget_setField_ne _ "fat" "carbs" _ (by decide), mget_setField_self]

theorem mget_normalizeItem_fat (fs : List (String × JVal)) :
    mget (normalizeItem (.obj fs)) "fat" =
      roundNumJ round1 (mget (.obj fs) "fat") := by
  simp only [normalizeItem]
  rw [mget_setField_self]

theorem mget_normalizeMeal_items (fs : List (String × JVal)) :
    mget (normalizeMeal (.obj fs)) "items" = mapItems (mget (.obj fs) "items") := by
  simp only [normalizeMeal]
  rw [mget_setField_ne _ "fat" "items" _ (by decide),
    mget_setField_ne _ "carbs" "items" _ (by decide),
    mget_setField_ne _ "protein" "items" _ (by decide),
    mget_setField_ne _ "total_calories" "items" _ (by decide),
    mget_setField_self]

theorem mget_normalizeMeal_total (fs : List (String × JVal)) :
    mget (normalizeMeal (.obj fs)) "total_calories" =
      roundNumJ roundI (mget (.obj fs) "total_calories") := by
  simp only [normalizeMeal]
  rw [mget_setField_ne _ "fat" "total_calories" _ (by decide),
    mget_setField_ne _ "carbs" "total_calories" _ (by decide),
    mget_setField_ne _ "protein" "total_calories" _ (by decide),
    mget_setField_self]

theorem mget_normalizeMeal_protein (fs : List (String × JVal)) :
    mget (normalizeMeal (.obj fs)) "protein" =
      roundNumJ round1 (mget (.obj fs) "protein") := by
  simp only [normalizeMeal]
  rw [mget_setField_ne _ "fat" "protein" _ (by decide),
    mget_setField_ne _ "carbs" "protein" _ (by decide),
    mget_setField_self]

theorem mget_normalizeMeal_carbs (fs : List (String × JVal)) :
    mget (normalizeMeal (.obj fs)) "carbs" =
      roundNumJ round1 (mget (.obj fs) "carbs") := by
  simp only [normalizeMeal]
  rw [mget_setField_ne _ "fat" "carbs" _ (by decide), mget_setField_self]

theorem mget_normalizeMeal_fat (fs : List (String × JVal)) :
    mget (normalizeMeal (.obj fs)) "fat" =
      roundNumJ round1 (mget (.obj fs) "fat") := by
  simp only [normalizeMeal]
  rw [mget_setField_self]

theorem invalidItem_false_iff (it : JVal) : invalidItem it = false ↔
    typeofJ (mget it "name") = "string" ∧ typeofJ (mget it "quantity") = "string" ∧
    typeofJ (mget it "calories") = "number" ∧ typeofJ (mget it "protein") = "number" ∧
    typeofJ (mget it "carbs") = "number" ∧ typeofJ (mget it "fat") = "number" := by
  simp [invalidItem]
  tauto

theorem invalidShape_false_iff (v : JVal) : invalidShape v = false ↔
    typeofJ (mget v "description") = "string" ∧ isArrayJ (mget v "items") = true ∧
    typeofJ (mget v "total_calories") = "number" ∧
    typeofJ (mget v "protein") = "number" ∧ typeofJ (mget v "carbs") = "number" ∧
    typeofJ (mget v "fat") = "number" ∧ isArrayJ (mget v "assumptions") = true := by
  simp [invalidShape]
  tauto

theorem normalizeItem_rounded (it : JVal) (h : invalidItem it = false) :
    itemRounded (normalizeItem it) := by
  obtain ⟨hname, _, hcal, hprot, hcarb, hfat⟩ := (invalidItem_false_iff it).mp h
  cases it with
  | obj fs =>
      obtain ⟨c, hc⟩ := typeofJ_number _ hcal
      obtain ⟨p, hp⟩ := typeofJ_number _ hprot
      obtain ⟨cb, hcb⟩ := typeofJ_number _ hcarb
      obtain ⟨f, hf⟩ := typeofJ_number _ hfat
      refine ⟨⟨roundI c, ?_, roundI_idem c⟩, ⟨round1 p, ?_, round1_idem p⟩,
        ⟨round1 cb, ?_, round1_idem cb⟩, ⟨round1 f, ?_, round1_idem f⟩⟩
      · rw [mget_normalizeItem_calories, hc]; rfl
      · rw [mget_normalizeItem_protein, hp]; rfl
      · rw [mget_normalizeItem_carbs, hcb]; rfl
      · rw [mget_normalizeItem_fat, hf]; rfl
  | undefined => simp [mget, typeofJ] at hname
  | jnull => simp [mget, typeofJ] at hname
  | jbool b => simp [mget, typeofJ] at hname
  | num q => simp [mget, typeofJ] at hname
  | str s => simp [mget, typeofJ] at hname
  | arr l => simp [mget, typeofJ] at hname

theorem normalizeMeal_rounded (v : JVal) (h1 : invalidShape v = false)
    (h2 : anyInvalidItem v = false) : mealRounded (normalizeMeal v) := by
  obtain ⟨hdesc, hitems, htot, hprot, hcarb, hfat, _⟩ :=
    (invalidShape_false_iff v).mp h1
  cases v with
  | obj fs =>
      obtain ⟨t, ht⟩ := typeofJ_number _ htot
      obtain ⟨p, hp⟩ := typeofJ_number _ hprot
      obtain ⟨cb, hcb⟩ := typeofJ_number _ hcarb
      obtain ⟨f, hf⟩ := typeofJ_number _ hfat
      obtain ⟨l, hl⟩ := isArrayJ_arr _ hitems
      have hall : ∀ it ∈ l, invalidItem it = false := by
        intro it hit
        have hrw : anyInvalidItem (JVal.obj fs) = l.any invalidItem := by
          simp [anyInvalidItem, hl]
        rw [hrw] at h2
        have := List.any_eq_false.mp h2 it hit
        simpa using this
      refine ⟨⟨roundI t, ?_, roundI_idem t⟩, ⟨round1 p, ?_, round1_idem p⟩,
        ⟨round1 cb, ?_, round1_idem cb⟩, ⟨round1 f, ?_, round1_idem f⟩,
        l.map normalizeItem, ?_, ?_⟩
      · rw [mget_normalizeMeal_total, ht]; rfl
      · rw [mget_normalizeMeal_protein, hp]; rfl
      · rw [mget_normalizeMeal_carbs, hcb]; rfl
      · rw [mget_normalizeMeal_fat, hf]; rfl
      · rw [mget_normalizeMeal_items, hl]; rfl
      · intro it hit
        obtain ⟨u, hu, rfl⟩ := List.mem_map.mp hit
        exact normalizeItem_rounded u (hall u hu)
  | undefined => simp [mget, typeofJ] at hdesc
  | jnull => simp [mget, typeofJ] at hdesc
  | jbool b => simp [mget, typeofJ] at hdesc
  | num q => simp [mget, typeofJ] at hdesc
  | str s => simp [mget, typeofJ] at hdesc
  | arr l => simp [mget, typeofJ] at hdesc

/-- C4: every meal estimate answered with status 200 is the rounded
normalization of a parsed provider response, and every numeric field of
the returned body is rounded — `total_calories` and each item's
`calories` to an integer, `protein`/`carbs`/`fat` (item and top level)
to one decimal place. -/
theorem estimateMeal_200_rounded (key : String) (u : JVal) (p : ProviderOut)
    (h : (estimateMeal key u p).status = 200) :
    (∃ v, p = ProviderOut.parsed v ∧
      (estimateMeal key u p).body = normalizeMeal v) ∧
    mealRounded (estimateMeal key u p).body := by
  unfold estimateMeal at h ⊢
  by_cases hin : (!(truthyJ u) || (typeofJ u != "string")) = true
  · rw [if_pos hin] at h
    simp at h
  · rw [if_neg hin] at h ⊢
    by_cases hkey : key = ""
    · rw [if_pos hkey] at h
      simp at h
    · rw [if_neg hkey] at h ⊢
      cases p with
      | noContent => simp at h
      | parseError msg => simp at h
      | parsed v =>
          dsimp only at h ⊢
          by_cases hs : invalidShape v = true
          · rw [if_pos hs] at h
            simp at h
          · rw [if_neg hs] at h ⊢
            by_cases hi : anyInvalidItem v = true
            · rw [if_pos hi] at h
              simp at h
            · rw [if_neg hi] at h ⊢
              exact ⟨⟨v, rfl, rfl⟩,
                normalizeMeal_rounded v (Bool.eq_false_iff.mpr hs)
                  (Bool.eq_false_iff.mpr hi)⟩

/-- Witness for C4 on a concrete provider response that passes
validation. -/
theorem estimateMeal_200_rounded_witness :
    (∃ v, ProviderOut.parsed mismatchedMeal = ProviderOut.parsed v ∧
      (estimateMeal "key" (.str "2 eggs and toast")
        (.parsed mismatchedMeal)).body = normalizeMeal v) ∧
    mealRounded (estimateMeal "key" (.str "2 eggs and toast")
      (.parsed mismatchedMeal)).body :=
  estimateMeal_200_rounded "key" (.str "2 eggs and toast")
    (.parsed mismatchedMeal) rfl

/-! ## Claim theorems: food-search pagination validation -/

theorem searchFoods_query_ok (q : String) (hq : q ≠ "") (ps pn : Option QVal)
    (up : UpstreamOut) :
    searchFoods (some (.qstr q)) ps pn up =
      (match parseIntJS (jsToStringQ (ps.getD (.qstr "10"))),
             parseIntJS (jsToStringQ (pn.getD (.qstr "1"))) with
       | some a, some b =>
           if a < 1 ∨ b < 1 then
             ⟨400, errBody "Invalid pageSize or pageNumber parameters.", false⟩
           else
             match up with
             | .ok data => ⟨200, data, true⟩
             | .httpError st =>
                 ⟨500, errBody ("USDA API Error: " ++ toString st), true⟩
       | _, _ => ⟨400, errBody "Invalid pageSize or pageNumber parameters.", false⟩) := by
  unfold searchFoods
  have hcond : (!(truthyQ (some (QVal.qstr q))) ||
      (typeofQ (some (QVal.qstr q)) != "string")) = false := by
    simp [truthyQ, typeofQ, hq]
  rw [hcond]
  rfl

/-- C2 (amended): provided `query` is a nonempty string, a request with
`pageSize=0`, or `pageNumber=-1`, or a non-numeric `pageSize` or
`pageNumber` string, is answered 400 with the
"Invalid pageSize or pageNumber parameters." error and no outbound call.
(Quantified over all requests the original claim fails: when `query` is
itself missing the 400 carries the query error message instead.) -/
theorem searchFoods_bad_pagination (q : String) (ps pn : Option QVal)
    (up : UpstreamOut) (hq : q ≠ "")
    (hbad : ps = some (.qstr "0") ∨ pn = some (.qstr "-1") ∨
      (∃ s, ps = some (.qstr s) ∧ parseIntJS s = none) ∨
      (∃ s, pn = some (.qstr s) ∧ parseIntJS s = none)) :
    searchFoods (some (.qstr q)) ps pn up =
      ⟨400, errBody "Invalid pageSize or pageNumber parameters.", false⟩ := by
  rw [searchFoods_query_ok q hq ps pn up]
  rcases hbad with h | h | ⟨s, hps, hnone⟩ | ⟨s, hpn, hnone⟩
  · subst h
    have h0 : parseIntJS (jsToStringQ ((some (QVal.qstr "0")).getD
        (.qstr "10"))) = some 0 := rfl
    rw [h0]
    cases hpn : parseIntJS (jsToStringQ (pn.getD (.qstr "1"))) with
    | none => rfl
    | some b =>
        dsimp only
        rw [if_pos (Or.inl (by norm_num : (0:ℤ) < 1))]
  · subst h
    have h1 : parseIntJS (jsToStringQ ((some (QVal.qstr "-1")).getD
        (.qstr "1"))) = some (-1) := rfl
    rw [h1]
    cases hps : parseIntJS (jsToStringQ (ps.getD (.qstr "10"))) with
    | none => rfl
    | some a =>
        dsimp only
        rw [if_pos (Or.inr (by norm_num : (-1:ℤ) < 1))]
  · subst hps
    have h2 : parseIntJS (jsToStringQ ((some (QVal.qstr s)).getD
        (.qstr "10"))) = none := hnone
    rw [h2]
  · subst hpn
    have h3 : parseIntJS (jsToStringQ ((some (QVal.qstr s)).getD
        (.qstr "1"))) = none := hnone
    rw [h3]
    cases hps : parseIntJS (jsToStringQ (ps.getD (.qstr "10"))) with
    | none => rfl
    | some a => rfl

/-- Witness for the amended C2: `query=apple&pageSize=0`. -/
theorem searchFoods_bad_pagination_witness :
    searchFoods (some (.qstr "apple")) (some (.qstr "0")) none
        (.ok .jnull) =
      ⟨400, errBody "Invalid pageSize or pageNumber parameters.", false⟩ :=
  searchFoods_bad_pagination "apple" (some (.qstr "0")) none (.ok .jnull)
    (by decide) (Or.inl rfl)

/-- C2 counterexample: with `query` absent and `pageSize=0` the response
is 400 without an outbound call, but its body is the query error, not
"Invalid pageSize or pageNumber parameters." as the claim requires for
every request with `pageSize=0`. -/
theorem searchFoods_pagination_counterexample :
    (searchFoods none (some (.qstr "0")) none (.ok .jnull)).status = 400 ∧
    (searchFoods none (some (.qstr "0")) none (.ok .jnull)).outboundCalled
      = false ∧
    (searchFoods none (some (.qstr "0")) none (.ok .jnull)).body =
      errBody "Invalid request. query parameter is required." ∧
    (searchFoods none (some (.qstr "0")) none (.ok .jnull)).body ≠
      errBody "Invalid pageSize or pageNumber parameters." := by
  refine ⟨rfl, rfl, rfl, ?_⟩
  intro hcontra
  have hbody : (searchFoods none (some (QVal.qstr "0")) none
      (.ok .jnull)).body =
      errBody "Invalid request. query parameter is required." := rfl
  rw [hbody] at hcontra
  simp [errBody] at hcontra
